import Mathlib

/-!
Verification of the loader-generation core of the repository: the two pure
functions extract_data_offset and transform_into_configurable_loader from
src/lib.rs, which rewrite a compiled VM executable into a small loader
artifact.  Bytes are modelled as natural numbers below 256 inside List Nat;
Rust panics (out-of-bounds slicing, failed expect) are modelled as Option
none.
-/

/-- Big-endian interpretation of a byte list, mirroring u64.from_be_bytes in
extract_data_offset: the first byte is the most significant. -/
def beBytesToNat : List Nat → Nat
  | [] => 0
  | b :: rest => b * 256 ^ rest.length + beBytesToNat rest

/-- Embedding of extract_data_offset from src/lib.rs lines 15-19: slice the
binary at bytes 8..16 and read them as an 8-byte big-endian unsigned integer.
The Rust indexing binary[8..16] panics when the binary holds fewer than 16
bytes; that panic is modelled as none. -/
def extract_data_offset (binary : List Nat) : Option Nat :=
  if 16 ≤ binary.length then some (beBytesToNat ((binary.drop 8).take 8))
  else none

/-- The pure value read by extract_data_offset on a sufficiently long binary:
the big-endian integer held in bytes 8..16. -/
def dataOffsetVal (binary : List Nat) : Nat :=
  beBytesToNat ((binary.drop 8).take 8)

/-- Modelled from the spec: WORD_SIZE is imported in src/lib.rs from the
external fuels crate (not part of this repository); the spec fixes the
data-section length field at 8 bytes, so WORD_SIZE is 8. -/
def WORD_SIZE : Nat := 8

/-- Constant from transform_into_configurable_loader: the blob identifier is
32 bytes. -/
def BLOB_ID_SIZE : Nat := 32

/-- Scratch register holding the self-relative pointer into the data appended
after the loader code (register 0x10 in src/lib.rs). -/
def REG_ADDRESS_OF_DATA_AFTER_CODE : Nat := 0x10

/-- Scratch register recording where the loaded code starts (0x11). -/
def REG_START_OF_LOADED_CODE : Nat := 0x11

/-- General-purpose scratch register (0x12). -/
def REG_GENERAL_USE : Nat := 0x12

/-- Scratch register holding the start of the copied data section (0x13). -/
def REG_START_OF_DATA_SECTION : Nat := 0x13

namespace RegId

/-- Modelled from the spec: the zero register of the target VM register file
(external fuel-asm ABI, not part of this repository). -/
def ZERO : Nat := 0x00

/-- Modelled from the spec: the program-counter register of the target VM. -/
def PC : Nat := 0x03

/-- Modelled from the spec: the stack-pointer register of the target VM. -/
def SP : Nat := 0x05

/-- Modelled from the spec: the instruction-segment-base register of the
target VM. -/
def IS : Nat := 0x0C

end RegId

/-- The instruction kinds emitted by the loader synthesizer, exactly the
fuel-asm constructors used in src/lib.rs lines 37-94, each carrying its
operand fields. -/
inductive Instruction where
  | move_ (ra rb : Nat)
  | addi (ra rb imm : Nat)
  | bsiz (ra rb : Nat)
  | ldc (ra rb rc imm : Nat)
  | lw (ra rb imm : Nat)
  | cfe (ra : Nat)
  | sub (ra rb rc : Nat)
  | mcp (ra rb rc : Nat)
  | add (ra rb rc : Nat)
  | logd (ra rb rc rd : Nat)
  | divi (ra rb imm : Nat)
  | jmp (ra : Nat)
  deriving DecidableEq, Repr

/-- Fixed byte width of one encoded instruction, the external fuel-asm
constant Instruction.SIZE used at src/lib.rs line 45; every fuel instruction
encodes into exactly 4 bytes. -/
def Instruction.SIZE : Nat := 4

/-- Modelled from the spec: the 32-bit encoded word of an instruction.  The
encoding layout (8-bit opcode, 6-bit register fields, 12-bit or 6-bit
immediates, packed high to low) follows the target machine ABI described in
spec section 6; the numeric opcode discriminants belong to the external
fuel-asm crate, which is not part of this repository.  No claim settled here
depends on the discriminant values, only on the fixed 4-byte width and on the
operand fields, which are carried verbatim from src/lib.rs. -/
def Instruction.toWord : Instruction → Nat
  | .move_ a b => 0x1A * 2 ^ 24 + a % 64 * 2 ^ 18 + b % 64 * 2 ^ 12
  | .addi a b i => 0x50 * 2 ^ 24 + a % 64 * 2 ^ 18 + b % 64 * 2 ^ 12 + i % 4096
  | .bsiz a b => 0xA6 * 2 ^ 24 + a % 64 * 2 ^ 18 + b % 64 * 2 ^ 12
  | .ldc a b c i => 0x39 * 2 ^ 24 + a % 64 * 2 ^ 18 + b % 64 * 2 ^ 12 + c % 64 * 2 ^ 6 + i % 64
  | .lw a b i => 0x5D * 2 ^ 24 + a % 64 * 2 ^ 18 + b % 64 * 2 ^ 12 + i % 4096
  | .cfe a => 0x74 * 2 ^ 24 + a % 64 * 2 ^ 18
  | .sub a b c => 0x20 * 2 ^ 24 + a % 64 * 2 ^ 18 + b % 64 * 2 ^ 12 + c % 64 * 2 ^ 6
  | .mcp a b c => 0x29 * 2 ^ 24 + a % 64 * 2 ^ 18 + b % 64 * 2 ^ 12 + c % 64 * 2 ^ 6
  | .add a b c => 0x10 * 2 ^ 24 + a % 64 * 2 ^ 18 + b % 64 * 2 ^ 12 + c % 64 * 2 ^ 6
  | .logd a b c d => 0x3B * 2 ^ 24 + a % 64 * 2 ^ 18 + b % 64 * 2 ^ 12 + c % 64 * 2 ^ 6 + d % 64
  | .divi a b i => 0x52 * 2 ^ 24 + a % 64 * 2 ^ 18 + b % 64 * 2 ^ 12 + i % 4096
  | .jmp a => 0x73 * 2 ^ 24 + a % 64 * 2 ^ 18

/-- The 4 big-endian bytes of an encoded instruction (fuel-asm
Instruction.to_bytes, used at src/lib.rs line 106). -/
def Instruction.toBytes (i : Instruction) : List Nat :=
  [i.toWord / 2 ^ 24 % 256, i.toWord / 2 ^ 16 % 256, i.toWord / 2 ^ 8 % 256, i.toWord % 256]

/-- Embedding of the get_instructions closure from src/lib.rs lines 32-95:
given the instruction count to bake into the second instruction, return the
loader instruction sequence.  The sequence is a fixed array literal; its
length does not depend on the argument. -/
def get_instructions (num_of_instructions : Nat) : List Instruction :=
  [ Instruction.move_ REG_ADDRESS_OF_DATA_AFTER_CODE RegId.PC,
    Instruction.addi REG_ADDRESS_OF_DATA_AFTER_CODE REG_ADDRESS_OF_DATA_AFTER_CODE
      (num_of_instructions * Instruction.SIZE),
    Instruction.move_ REG_START_OF_LOADED_CODE RegId.SP,
    Instruction.bsiz REG_GENERAL_USE REG_ADDRESS_OF_DATA_AFTER_CODE,
    Instruction.move_ 0x16 REG_GENERAL_USE,
    Instruction.ldc REG_ADDRESS_OF_DATA_AFTER_CODE 0 REG_GENERAL_USE 1,
    Instruction.addi REG_ADDRESS_OF_DATA_AFTER_CODE REG_ADDRESS_OF_DATA_AFTER_CODE BLOB_ID_SIZE,
    Instruction.lw REG_GENERAL_USE REG_ADDRESS_OF_DATA_AFTER_CODE 0,
    Instruction.addi REG_ADDRESS_OF_DATA_AFTER_CODE REG_ADDRESS_OF_DATA_AFTER_CODE WORD_SIZE,
    Instruction.cfe REG_GENERAL_USE,
    Instruction.sub REG_START_OF_DATA_SECTION RegId.SP REG_GENERAL_USE,
    Instruction.mcp REG_START_OF_DATA_SECTION REG_ADDRESS_OF_DATA_AFTER_CODE REG_GENERAL_USE,
    Instruction.add 0x16 0x16 REG_GENERAL_USE,
    Instruction.logd RegId.ZERO RegId.ZERO REG_START_OF_LOADED_CODE 0x16,
    Instruction.sub REG_START_OF_LOADED_CODE REG_START_OF_LOADED_CODE RegId.IS,
    Instruction.divi REG_START_OF_LOADED_CODE REG_START_OF_LOADED_CODE 4,
    Instruction.jmp REG_START_OF_LOADED_CODE ]

/-- Big-endian 8-byte encoding of a natural number, mirroring
u64.to_be_bytes at src/lib.rs line 115 (the value is reduced modulo 2^64 by
the byte extraction, matching the u64 type). -/
def u64ToBeBytes (n : Nat) : List Nat :=
  [ n / 2 ^ 56 % 256, n / 2 ^ 48 % 256, n / 2 ^ 40 % 256, n / 2 ^ 32 % 256,
    n / 2 ^ 24 % 256, n / 2 ^ 16 % 256, n / 2 ^ 8 % 256, n % 256 ]

/-- Embedding of transform_into_configurable_loader from src/lib.rs lines
21-118.  Panics are modelled as none: the header read panics when the binary
is shorter than 16 bytes; the slice binary[offset..] panics when the offset
exceeds the binary length; the expect on u16.try_from panics when the
template holds more than 65535 instructions.  Otherwise the artifact is the
encoded instruction bytes, the blob identifier bytes, the 8-byte big-endian
data-section length, and the data-section bytes, in that order. -/
def transform_into_configurable_loader (binary : List Nat) (blob_id : List Nat) :
    Option (List Nat) :=
  match extract_data_offset binary with
  | none => none
  | some offset =>
      if binary.length < offset then none
      else
        let data_section := binary.drop offset
        let num_of_instructions := (get_instructions 0).length
        if 65535 < num_of_instructions then none
        else
          let instruction_bytes :=
            ((get_instructions num_of_instructions).map Instruction.toBytes).flatten
          some (instruction_bytes ++ blob_id ++ u64ToBeBytes data_section.length ++ data_section)

/-- The concrete encoded loader-instruction block: the template is measured
once (its length) and re-emitted with that count baked in, exactly as the
two-phase step in src/lib.rs lines 101-106 does. -/
def loader_code : List Nat :=
  ((get_instructions ((get_instructions 0).length)).map Instruction.toBytes).flatten

/-- Concrete 16-byte example binary whose data-offset field holds 12. -/
def exBin : List Nat := [1, 2, 3, 4, 5, 6, 7, 8, 0, 0, 0, 0, 0, 0, 0, 12]

/-- Concrete 16-byte example binary whose data-offset field holds 16, equal
to its length: the data section is empty. -/
def exBinFull : List Nat := [0, 0, 0, 0, 0, 0, 0, 0, 0, 0, 0, 0, 0, 0, 0, 16]

/-- Concrete 16-byte example binary whose data-offset field holds 255,
strictly larger than its length. -/
def exBinBad : List Nat := [0, 0, 0, 0, 0, 0, 0, 0, 0, 0, 0, 0, 0, 0, 0, 255]

/-- Concrete 32-byte example blob identifier. -/
def exBlob : List Nat := List.replicate 32 9

lemma extract_eq_some (b : List Nat) (h : 16 ≤ b.length) :
    extract_data_offset b = some (dataOffsetVal b) := by
  simp [extract_data_offset, dataOffsetVal, h]

lemma u64ToBeBytes_length (n : Nat) : (u64ToBeBytes n).length = 8 := rfl

lemma transform_eq (b id : List Nat) (h16 : 16 ≤ b.length)
    (hoff : dataOffsetVal b ≤ b.length) :
    transform_into_configurable_loader b id =
      some (loader_code ++ id ++ u64ToBeBytes (b.length - dataOffsetVal b) ++
        b.drop (dataOffsetVal b)) := by
  simp only [transform_into_configurable_loader, extract_eq_some b h16]
  rw [if_neg (Nat.not_lt.mpr hoff)]
  rw [if_neg (by decide : ¬ (65535 < (get_instructions 0).length))]
  rw [List.length_drop]
  rfl

/-- C1: for a binary of at least 16 bytes whose header data offset is at most
the binary length, and a 32-byte blob identifier, the transformation returns
exactly the encoded loader-instruction bytes, then the identifier, then the
8-byte big-endian encoding of the binary length minus the offset, then the
data-section bytes; consequently the artifact length is the instruction-block
length plus 32 plus 8 plus the data-section length. -/
theorem transform_artifact_layout (binary blob_id : List Nat)
    (h16 : 16 ≤ binary.length) (hoff : dataOffsetVal binary ≤ binary.length)
    (hid : blob_id.length = 32) :
    transform_into_configurable_loader binary blob_id =
      some (loader_code ++ blob_id ++ u64ToBeBytes (binary.length - dataOffsetVal binary) ++
        binary.drop (dataOffsetVal binary)) ∧
    (loader_code ++ blob_id ++ u64ToBeBytes (binary.length - dataOffsetVal binary) ++
        binary.drop (dataOffsetVal binary)).length =
      loader_code.length + 32 + 8 + (binary.drop (dataOffsetVal binary)).length := by
  refine ⟨transform_eq binary blob_id h16 hoff, ?_⟩
  simp [List.length_append, hid, u64ToBeBytes_length]
  omega

/-- C1 witness at a concrete 16-byte binary with offset 12 and a concrete
32-byte identifier. -/
theorem transform_artifact_layout_witness :
    transform_into_configurable_loader exBin exBlob =
      some (loader_code ++ exBlob ++ u64ToBeBytes (exBin.length - dataOffsetVal exBin) ++
        exBin.drop (dataOffsetVal exBin)) ∧
    (loader_code ++ exBlob ++ u64ToBeBytes (exBin.length - dataOffsetVal exBin) ++
        exBin.drop (dataOffsetVal exBin)).length =
      loader_code.length + 32 + 8 + (exBin.drop (dataOffsetVal exBin)).length :=
  transform_artifact_layout exBin exBlob (by decide) (by decide) (by decide)

/-- C2: on a binary of at least 16 bytes, extract_data_offset returns the
integer whose big-endian base-256 digits are bytes 8 through 15 of the
binary. -/
theorem extract_data_offset_be (b : List Nat) (h : 16 ≤ b.length) :
    extract_data_offset b =
      some (b.getD 8 0 * 256 ^ 7 + b.getD 9 0 * 256 ^ 6 + b.getD 10 0 * 256 ^ 5 +
        b.getD 11 0 * 256 ^ 4 + b.getD 12 0 * 256 ^ 3 + b.getD 13 0 * 256 ^ 2 +
        b.getD 14 0 * 256 + b.getD 15 0) := by
  rcases b with _ | ⟨x0, b⟩
  · simp at h
  rcases b with _ | ⟨x1, b⟩
  · simp at h
  rcases b with _ | ⟨x2, b⟩
  · simp at h
  rcases b with _ | ⟨x3, b⟩
  · simp at h
  rcases b with _ | ⟨x4, b⟩
  · simp at h
  rcases b with _ | ⟨x5, b⟩
  · simp at h
  rcases b with _ | ⟨x6, b⟩
  · simp at h
  rcases b with _ | ⟨x7, b⟩
  · simp at h
  rcases b with _ | ⟨x8, b⟩
  · simp at h
  rcases b with _ | ⟨x9, b⟩
  · simp at h
  rcases b with _ | ⟨x10, b⟩
  · simp at h
  rcases b with _ | ⟨x11, b⟩
  · simp at h
  rcases b with _ | ⟨x12, b⟩
  · simp at h
  rcases b with _ | ⟨x13, b⟩
  · simp at h
  rcases b with _ | ⟨x14, b⟩
  · simp at h
  rcases b with _ | ⟨x15, b⟩
  · simp at h
  simp only [extract_data_offset]
  split
  · simp only [List.drop_succ_cons, List.drop_zero, List.take_succ_cons, List.take_zero,
      beBytesToNat, List.length_cons, List.length_nil, List.getD_cons_succ, List.getD_cons_zero,
      Option.some.injEq]
    ring
  · rename_i hcon
    simp only [List.length_cons] at hcon
    omega

/-- C2 witness at a concrete 16-byte binary. -/
theorem extract_data_offset_be_witness :
    extract_data_offset exBin =
      some (exBin.getD 8 0 * 256 ^ 7 + exBin.getD 9 0 * 256 ^ 6 + exBin.getD 10 0 * 256 ^ 5 +
        exBin.getD 11 0 * 256 ^ 4 + exBin.getD 12 0 * 256 ^ 3 + exBin.getD 13 0 * 256 ^ 2 +
        exBin.getD 14 0 * 256 + exBin.getD 15 0) :=
  extract_data_offset_be exBin (by decide)

/-- C3: the loader template has the same length whatever count is passed to
it, and in the final emitted sequence (generated with the measured template
length baked in) the second instruction is the addi whose immediate operand
is exactly the emitted instruction count times the fixed instruction
width. -/
theorem get_instructions_self_reference :
    ∀ n : Nat, (get_instructions n).length = (get_instructions 0).length ∧
      (get_instructions ((get_instructions 0).length))[1]? =
        some (Instruction.addi REG_ADDRESS_OF_DATA_AFTER_CODE REG_ADDRESS_OF_DATA_AFTER_CODE
          ((get_instructions ((get_instructions 0).length)).length * Instruction.SIZE)) :=
  fun _ => ⟨rfl, rfl⟩

/-- C4 counterexample: a 16-byte binary whose data-offset field holds 255
makes extract_data_offset return a value strictly larger than the binary
length, refuting the claim as stated. -/
theorem extract_offset_bound_counterexample :
    ¬ ∀ b : List Nat, 16 ≤ b.length → ∀ v : Nat,
        extract_data_offset b = some v → v ≤ b.length := by
  intro hall
  have h2 := hall exBinBad (by decide) 255 (by decide)
  exact absurd h2 (by decide)

/-- C4 amended: on a binary of at least 16 bytes whose header data-offset
value is at most the binary length, extract_data_offset returns that value,
the value is at most the binary length, and splitting the binary there
reproduces the binary as code concatenated with data. -/
theorem extract_offset_split (b : List Nat) (h16 : 16 ≤ b.length)
    (hoff : dataOffsetVal b ≤ b.length) :
    extract_data_offset b = some (dataOffsetVal b) ∧ dataOffsetVal b ≤ b.length ∧
      b.take (dataOffsetVal b) ++ b.drop (dataOffsetVal b) = b :=
  ⟨extract_eq_some b h16, hoff, List.take_append_drop _ _⟩

/-- C4 amended-claim witness at a concrete 16-byte binary with offset 12. -/
theorem extract_offset_split_witness :
    extract_data_offset exBin = some (dataOffsetVal exBin) ∧
      dataOffsetVal exBin ≤ exBin.length ∧
      exBin.take (dataOffsetVal exBin) ++ exBin.drop (dataOffsetVal exBin) = exBin :=
  extract_offset_split exBin (by decide) (by decide)

/-- C5: when the data offset equals the binary length the data section is
empty, and the artifact is the loader code, the identifier, and an 8-byte
all-zero length field with no bytes after it. -/
theorem transform_empty_data_section (b id : List Nat) (h16 : 16 ≤ b.length)
    (hoff : dataOffsetVal b = b.length) :
    transform_into_configurable_loader b id =
      some ((loader_code ++ id) ++ List.replicate 8 0) := by
  rw [transform_eq b id h16 (le_of_eq hoff), hoff]
  rw [Nat.sub_self, List.drop_length]
  rw [(by decide : List.replicate 8 (0 : Nat) = u64ToBeBytes 0)]
  simp only [List.append_nil, List.append_assoc]

/-- C5 witness at a concrete 16-byte binary whose offset field holds 16. -/
theorem transform_empty_data_section_witness :
    transform_into_configurable_loader exBinFull exBlob =
      some ((loader_code ++ exBlob) ++ List.replicate 8 0) :=
  transform_empty_data_section exBinFull exBlob (by decide) (by decide)

/-- C6: extract_data_offset fails exactly on binaries shorter than 16 bytes
and succeeds on every binary of at least 16 bytes. -/
theorem extract_fails_iff_short (b : List Nat) :
    extract_data_offset b = none ↔ b.length < 16 := by
  by_cases h : 16 ≤ b.length
  · simp [extract_data_offset, h]
  · simp [extract_data_offset, h]
    omega

/-- C7: the transformation is deterministic, equal inputs give byte-identical
artifacts. -/
theorem transform_deterministic (b1 b2 id1 id2 : List Nat) (hb : b1 = b2)
    (hid : id1 = id2) :
    transform_into_configurable_loader b1 id1 = transform_into_configurable_loader b2 id2 := by
  rw [hb, hid]

/-- C7 witness: two runs on the same concrete binary and identifier. -/
theorem transform_deterministic_witness :
    transform_into_configurable_loader exBin exBlob =
      transform_into_configurable_loader exBin exBlob :=
  transform_deterministic exBin exBin exBlob exBlob rfl rfl

/-- C8 counterexample: the template emits 17 instructions, not 16, so the
parenthetical count in the claim is false already at argument 0. -/
theorem instruction_count_not_sixteen : (get_instructions 0).length ≠ 16 := by
  decide

/-- C8 amended: whatever argument is passed and whatever the input binary,
the template yields exactly 17 fixed-width instructions, the encoded
instruction block is 17 times the instruction width long, and that byte
length is an exact multiple of the instruction width. -/
theorem instruction_block_width_invariant :
    ∀ n : Nat, (get_instructions n).length = 17 ∧
      (((get_instructions n).map Instruction.toBytes).flatten).length =
        (get_instructions n).length * Instruction.SIZE ∧
      Instruction.SIZE ∣ (((get_instructions n).map Instruction.toBytes).flatten).length :=
  fun _ => ⟨rfl, rfl, ⟨17, rfl⟩⟩

/-- C9: the instruction count always fits the 16-bit length field, so the
failure branch guarding u16.try_from is unreachable and the transformation
succeeds on every well-formed input. -/
theorem instruction_count_fits_u16 :
    (∀ n : Nat, (get_instructions n).length ≤ 65535) ∧
    ∀ (b id : List Nat), 16 ≤ b.length → dataOffsetVal b ≤ b.length →
      (transform_into_configurable_loader b id).isSome = true := by
  refine ⟨fun n => ?_, fun b id h16 hoff => ?_⟩
  · rw [show (get_instructions n).length = 17 from rfl]
    decide
  · rw [transform_eq b id h16 hoff]
    rfl

/-- C9 witness: the transformation succeeds on a concrete valid input. -/
theorem instruction_count_fits_u16_witness :
    (transform_into_configurable_loader exBin exBlob).isSome = true :=
  instruction_count_fits_u16.2 exBin exBlob (by decide) (by decide)

/-- C10: when the header offset of a binary of at least 16 bytes exceeds the
binary length, the transformation fails (the slice binary[offset..] panics)
rather than returning an artifact. -/
theorem transform_offset_overflow_panics (b id : List Nat) (h16 : 16 ≤ b.length)
    (hoff : b.length < dataOffsetVal b) :
    transform_into_configurable_loader b id = none := by
  simp only [transform_into_configurable_loader, extract_eq_some b h16]
  rw [if_pos hoff]

/-- C10 witness at a concrete 16-byte binary whose offset field holds 255. -/
theorem transform_offset_overflow_panics_witness :
    transform_into_configurable_loader exBinBad exBlob = none :=
  transform_offset_overflow_panics exBinBad exBlob (by decide) (by decide)
